import Mathlib

/-!
# A shallow embedding of `videojs-contrib-dash` (src/dist/videojs-dash.es.js)

This file embeds, as executable Lean definitions, the parts of the
videojs-contrib-dash adapter that its design document makes claims about:

* the error-translation listener `retriggerError_`,
* the DRM helper `Html5DashJS.buildDashJSProtData`,
* the duration logic (`getDuration_` manifest handler and `duration()`),
* the `updatesource` hook registry and its use during session construction,
* the constructor short-circuit for sources without a `src`, and `dispose()`,
* the caption colour helper `constructColor`,
* the TTML caption style application (`tryUpdateStyle` / `updateStyle`),
* the audio-track change handler, and
* the source-handler probe (`canHandleSource` / `canPlayType` /
  `canHandleKeySystems`).

JavaScript objects with string keys are modelled as insertion-ordered
association lists, JavaScript numbers as rationals, absent values as
`Option`, and statements that can throw as `Except String`.  Where object
identity (mutation) matters, a store of objects indexed by natural-number
references is threaded explicitly.
-/

deriving instance DecidableEq for Except

namespace VjsDash

/-! ## JavaScript-flavoured helpers -/

/-- Lookup of a property on a JS object (first matching key). -/
def objGet {α : Type} : List (String × α) → String → Option α
  | [], _ => none
  | (k', v) :: rest, k => if k' = k then some v else objGet rest k

/-- JS property assignment `o[k] = v`: overwrite in place if the key exists
(keeping property order), otherwise append. -/
def objSet {α : Type} : List (String × α) → String → α → List (String × α)
  | [], k, v => [(k, v)]
  | (k', v') :: rest, k, v =>
    if k' = k then (k, v) :: rest else (k', v') :: objSet rest k v

/-- JS `delete o[k]`. -/
def objDelete {α : Type} : List (String × α) → String → List (String × α)
  | [], _ => []
  | (k', v') :: rest, k =>
    if k' = k then objDelete rest k else (k', v') :: objDelete rest k

/-- Does the character list start with the given pattern? -/
def startsWithL : List Char → List Char → Bool
  | _, [] => true
  | [], _ :: _ => false
  | x :: xs, p :: ps => x == p && startsWithL xs ps

/-- Does the pattern occur anywhere in the character list? -/
def containsAux (pat : List Char) : List Char → Bool
  | [] => startsWithL [] pat
  | x :: xs => startsWithL (x :: xs) pat || containsAux pat xs

/-- Substring test: JS `s.match(pat)` (or `pat`-regex `.test`) for a pattern
with no special regex characters. -/
def strContains (s pat : String) : Bool :=
  containsAux pat.data s.data

/-- ASCII lower-casing of one character (enough for the `/i` regex flags). -/
def charToLower (c : Char) : Char :=
  if 'A' ≤ c ∧ c ≤ 'Z' then Char.ofNat (c.toNat + 32) else c

/-- ASCII lower-casing of a string. -/
def strToLower (s : String) : String :=
  String.mk (s.data.map charToLower)

/-- Does the string end with the given suffix? -/
def endsWithL (l pat : List Char) : Bool :=
  startsWithL l.reverse pat.reverse

/-- JS truthiness of a possibly-absent string (`undefined` and `''` are falsy). -/
def truthyStr : Option String → Bool
  | none => false
  | some s => s != ""

/-- JS truthiness of a possibly-absent number (`undefined` and `0` are falsy). -/
def truthyNum : Option ℚ → Bool
  | none => false
  | some q => q != 0

/-- Value of one hexadecimal digit character. -/
def hexDigitVal (c : Char) : Option Nat :=
  if '0' ≤ c ∧ c ≤ '9' then some (c.toNat - 48)
  else if 'a' ≤ c ∧ c ≤ 'f' then some (c.toNat - 87)
  else if 'A' ≤ c ∧ c ≤ 'F' then some (c.toNat - 55)
  else none

/-- Accumulating loop of `jsParseIntHex`: consume hex digits while they last. -/
def parseHexAux : List Char → Nat → Nat
  | [], acc => acc
  | c :: rest, acc =>
    match hexDigitVal c with
    | some d => parseHexAux rest (16 * acc + d)
    | none => acc

/-- JS `parseInt(s, 16)`: parse the longest hexadecimal prefix; `none` models
the `NaN` result when the string does not start with a hex digit. -/
def jsParseIntHex (l : List Char) : Option Nat :=
  match l with
  | [] => none
  | c :: _ =>
    match hexDigitVal c with
    | some _ => some (parseHexAux l 0)
    | none => none

/-- Decimal digits of the fraction `n / d` (`n < d`), produced by long
division with fuel.  Matches JS number-to-string output on numbers with a
short exact decimal expansion (the only ones that appear here). -/
def fracDigitsN : Nat → Nat → Nat → List Char
  | 0, _, _ => []
  | fuel + 1, n, d =>
    if n = 0 then []
    else Char.ofNat (48 + n * 10 / d) :: fracDigitsN fuel (n * 10 % d) d

/-- JS string coercion of a number with an exact short decimal expansion,
e.g. `0.5 ↦ "0.5"`, `1 ↦ "1"`. -/
def decimalString (q : ℚ) : String :=
  let n := q.num.natAbs
  let d := q.den
  let ds := fracDigitsN 30 (n % d) d
  (if q.num < 0 then "-" else "") ++ Nat.repr (n / d) ++
    (if ds.isEmpty then "" else "." ++ String.mk ds)

/-- JS string coercion of `parseInt`'s result (`none` prints as `NaN`). -/
def jsNumRepr : Option Nat → String
  | none => "NaN"
  | some n => Nat.repr n

/-! ## Error translation (`retriggerError_`, source lines 608-709)

A dash.js `ERROR` event carries `event.error` (a string naming the error
kind) and `event.event`, which dash.js fills either with a plain string or
with an object carrying `id` and `message` fields. -/

/-- The `event.event` payload of a dash.js error event. -/
inductive ErrPayload : Type
  | str (s : String)
  | obj (id : String) (message : String)
deriving DecidableEq

/-- `event.event.id` — JS property access; `undefined` on a string payload. -/
def ErrPayload.idField : ErrPayload → Option String
  | .str _ => none
  | .obj id _ => some id

/-- `event.event.message` — `undefined` on a string payload (modelled as
its JS string coercion, which is never reached for string payloads). -/
def ErrPayload.messageField : ErrPayload → String
  | .str _ => "undefined"
  | .obj _ m => m

/-- JS string coercion of the payload when it is used directly as a
`message` (the `key_session` and `mssError` branches). -/
def ErrPayload.coerceStr : ErrPayload → String
  | .str s => s
  | .obj _ _ => "[object Object]"

/-- A dash.js `ERROR` event as consumed by `retriggerError_`. -/
structure DashErrorEvent : Type where
  error : String
  event : ErrPayload
deriving DecidableEq

/-- The argument of `player.error(...)`. -/
structure PlayerError : Type where
  code : Nat
  message : String
deriving DecidableEq

/-- The error-translation listener (source lines 608-709): maps a dash.js
`ERROR` event to the `player.error` call it makes, `none` when the event is
ignored, and `Except.error` when the listener itself throws (calling
`.match` on a non-string `event.event`). -/
def retriggerError_ (e : DashErrorEvent) : Except String (Option PlayerError) :=
  if e.error = "capability" ∧ e.event = .str "mediasource" then
    .ok (some ⟨4, "The media cannot be played because it requires a feature " ++
      "that your browser does not support."⟩)
  else if e.error = "manifestError" ∧
      (e.event.idField = some "createParser" ∨
       e.event.idField = some "codec" ∨
       e.event.idField = some "nostreams" ∨
       e.event.idField = some "nostreamscomposed" ∨
       e.event.idField = some "parse" ∨
       e.event.idField = some "multiplexedrep") then
    .ok (some ⟨4, e.event.messageField⟩)
  else if e.error = "mediasource" then
    match e.event with
    | .obj _ _ => .error "TypeError: event.event.match is not a function"
    | .str s =>
      if strContains s "MEDIA_ERR_ABORTED" then .ok (some ⟨1, s⟩)
      else if strContains s "MEDIA_ERR_NETWORK" then .ok (some ⟨2, s⟩)
      else if strContains s "MEDIA_ERR_DECODE" then .ok (some ⟨3, s⟩)
      else if strContains s "MEDIA_ERR_SRC_NOT_SUPPORTED" then .ok (some ⟨4, s⟩)
      else if strContains s "MEDIA_ERR_ENCRYPTED" then .ok (some ⟨5, s⟩)
      else if strContains s "UNKNOWN" then .ok (some ⟨4, s⟩)
      else .ok (some ⟨4, s⟩)
  else if e.error = "capability" ∧ e.event = .str "encryptedmedia" then
    .ok (some ⟨5, "The media cannot be played because it requires encryption " ++
      "features that your browser does not support."⟩)
  else if e.error = "key_session" then
    .ok (some ⟨5, e.event.coerceStr⟩)
  else if e.error = "download" then
    .ok (some ⟨2, "The media playback was aborted because too many consecutive " ++
      "download errors occurred."⟩)
  else if e.error = "mssError" then
    .ok (some ⟨3, e.event.coerceStr⟩)
  else
    .ok none

/-! ## Colour construction (`constructColor`, source lines 381-395) -/

/-- `constructColor(color, opacity)` (source lines 381-395): build an
`rgba(r,g,b,a)` string from a `#rgb` or `#rrggbb` colour; any other length
throws. `color[i]` is JS `charAt`, `parseInt(..., 16)` is `jsParseIntHex`. -/
def constructColor (color : String) (opacity : ℚ) : Except String String :=
  if color.length = 4 then
    let c1 := color.data.getD 1 ' '
    let c2 := color.data.getD 2 ' '
    let c3 := color.data.getD 3 ' '
    let hex : List Char := [c1, c1, c2, c2, c3, c3]
    .ok ("rgba(" ++ jsNumRepr (jsParseIntHex (hex.take 2)) ++ "," ++
      jsNumRepr (jsParseIntHex ((hex.drop 2).take 2)) ++ "," ++
      jsNumRepr (jsParseIntHex ((hex.drop 4).take 2)) ++ "," ++
      decimalString opacity ++ ")")
  else if color.length = 7 then
    let hex : List Char := color.data.drop 1
    .ok ("rgba(" ++ jsNumRepr (jsParseIntHex (hex.take 2)) ++ "," ++
      jsNumRepr (jsParseIntHex ((hex.drop 2).take 2)) ++ "," ++
      jsNumRepr (jsParseIntHex ((hex.drop 4).take 2)) ++ "," ++
      decimalString opacity ++ ")")
  else
    .error ("Invalid color code provided, " ++ color ++
      "; must be formatted as e.g. #f0e or #f604e2.")

/-! ## Protection data (`Html5DashJS.buildDashJSProtData`, lines 790-810)

Mutation matters for this helper ("must not mutate the input"), so the
options objects live in an explicit store indexed by references. -/

/-- One entry of `source.keySystemOptions`: a key-system name and a
reference to its options object in the store. -/
structure KSEntry : Type where
  name : String
  optionsRef : Nat
deriving DecidableEq

/-- A store of JS option objects; a `Nat` is a reference to one. -/
abbrev OptStore := List (List (String × String))

/-- The `keySystemOptions` argument: absent (`undefined`/`null`), present
but not an array, or an array of entries. -/
inductive KSOInput : Type
  | absent
  | nonArray
  | arr (entries : List KSEntry)

/-- The conditional rename applied to the merged copy (source lines
801-804): `if (options.licenseUrl) { options.serverURL = options.licenseUrl;
delete options.licenseUrl; }`. -/
def renameLicenseUrl (o : List (String × String)) : List (String × String) :=
  if truthyStr (objGet o "licenseUrl") then
    objDelete (objSet o "serverURL" ((objGet o "licenseUrl").getD ""))
      "licenseUrl"
  else o

/-- The body of the `for` loop in `buildDashJSProtData`:
`videojs.mergeOptions({}, keySystem.options)` deep-copies the entry's
options into a fresh object (a dangling reference reads as `{}`, matching
`mergeOptions({}, undefined)`); `licenseUrl` is conditionally renamed on
that copy; `output[keySystem.name]` is set to the copy. -/
def buildLoop : OptStore → List (String × Nat) → List KSEntry →
    OptStore × List (String × Nat)
  | σ, out, [] => (σ, out)
  | σ, out, ks :: rest =>
    buildLoop (σ ++ [renameLicenseUrl (σ.getD ks.optionsRef [])])
      (objSet out ks.name σ.length) rest

/-- `Html5DashJS.buildDashJSProtData` (source lines 790-810): `none` (JS
`null`) for an absent or non-array input, otherwise the name-keyed output
object whose values are references to the freshly created option objects. -/
def buildDashJSProtData (σ : OptStore) :
    KSOInput → OptStore × Option (List (String × Nat))
  | .absent => (σ, none)
  | .nonArray => (σ, none)
  | .arr entries =>
    let p := buildLoop σ [] entries
    (p.1, some p.2)

/-! ## Duration (`getDuration_` lines 713-728, `duration` lines 831-837) -/

/-- One entry of the manifest's `Period_asArray`. -/
structure DashPeriod : Type where
  duration : Option ℚ
deriving DecidableEq

/-- The `event.data` of a `MANIFEST_LOADED` event, as read by `getDuration_`. -/
structure ManifestData : Type where
  mediaPresentationDuration : Option ℚ
  Period_asArray : List DashPeriod
deriving DecidableEq

/-- The `MANIFEST_LOADED` handler (source lines 713-728).  Input: the old
`hasFiniteDuration_` flag and the manifest; output: the new flag and
whether a `durationchange` event was fired, or `none` when the handler
throws (`periods[periods.length - 1]` is `undefined` on an empty period
list, so reading `.duration` is a TypeError). -/
def getDuration_ (hasFiniteDuration : Bool) (m : ManifestData) :
    Option (Bool × Bool) :=
  if truthyNum m.mediaPresentationDuration then
    some (true, true != hasFiniteDuration)
  else
    match m.Period_asArray.getLast? with
    | none => none
    | some p =>
      let newFlag := truthyNum p.duration
      some (newFlag, newFlag != hasFiniteDuration)

/-- Fold `getDuration_` over a sequence of `MANIFEST_LOADED` events,
counting the `durationchange` events fired; `none` when any handler call
throws. -/
def processManifests (hasFiniteDuration : Bool) :
    List ManifestData → Option (Bool × Nat)
  | [] => some (hasFiniteDuration, 0)
  | m :: ms =>
    match getDuration_ hasFiniteDuration m with
    | none => none
    | some (f, fired) =>
      match processManifests f ms with
      | none => none
      | some (f', n) => some (f', (if fired then 1 else 0) + n)

/-- A JS number that may be `Infinity`. -/
inductive JsNum : Type
  | fin (q : ℚ)
  | inf
deriving DecidableEq

/-- `Html5DashJS.prototype.duration` (source lines 831-837), with the
engine state (`isDynamic()`, `duration()`) passed explicitly. -/
def duration (isDynamic : Bool) (hasFiniteDuration : Bool)
    (engineDuration : JsNum) : JsNum :=
  if isDynamic && !hasFiniteDuration then .inf else engineDuration

/-! ## Hook registry (`Html5DashJS.hooks` / `hook`, lines 848-868) and the
`updatesource` phase of session construction (lines 573-575) -/

/-- A source object as seen by `updatesource` hooks. -/
abbrev Source := List (String × String)

/-- An `updatesource` hook. -/
abbrev SHook := Source → Source

/-- The process-wide `Html5DashJS.hooks_` object. -/
abbrev HookReg := List (String × List SHook)

/-- `Html5DashJS.hooks(type, hook)` (source lines 848-856): initialize the
slot to `[]` when missing, concatenate the optional new hooks, and return
the (registry, current hook list) pair. -/
def hooksOp (reg : HookReg) (type : String) (h : Option (List SHook)) :
    HookReg × List SHook :=
  let cur := (objGet reg type).getD []
  let upd := match h with
    | none => cur
    | some hs => cur ++ hs
  (objSet reg type upd, upd)

/-- `Html5DashJS.hook(type, hook)` (source lines 866-868) with a single
function argument. -/
def hookAdd (reg : HookReg) (type : String) (h : SHook) : HookReg :=
  (hooksOp reg type (some [h])).1

/-- Register a list of hooks one at a time via `Html5DashJS.hook`. -/
def registerAll (reg : HookReg) (type : String) : List SHook → HookReg
  | [] => reg
  | h :: hs => registerAll (hookAdd reg type h) type hs

/-- Constructor lines 573-575: `Html5DashJS.hooks('updatesource').forEach(
function (hook) { source = hook(source); })`.  (Reached only when
`source.src` is truthy and `Html5DashJS.updateSourceData` is unset.) -/
def sessionSource (reg : HookReg) (source : Source) : Source :=
  ((hooksOp reg "updatesource" none).2).foldl (fun acc h => h acc) source

/-! ## Constructor short-circuit and `dispose` (lines 546-566, 814-829) -/

/-- The adapter instance fields relevant to construction and disposal. -/
structure AdapterState : Type where
  hasFiniteDuration_ : Bool
  mediaPlayer_ : Option Nat
  ttmlContainer_ : Option Nat
  playerDash : Bool
deriving DecidableEq

/-- The `Html5DashJS` constructor (source lines 546-566 and onwards),
restricted to the fields above.  It always sets `player.dash` and
`hasFiniteDuration_ = false`; when `source.src` is falsy it returns before
creating the engine.  The second component lists the engine-related
actions performed. -/
def construct (src : Option String) (useTTML : Bool) :
    AdapterState × List String :=
  let st : AdapterState :=
    { hasFiniteDuration_ := false, mediaPlayer_ := none,
      ttmlContainer_ := none, playerDash := true }
  if !truthyStr src then (st, [])
  else
    ({ hasFiniteDuration_ := false, mediaPlayer_ := some 0,
       ttmlContainer_ := if useTTML then some 1 else none, playerDash := true },
     ["dashjs.MediaPlayer().create()", "initialize", "attachView"] ++
       (if useTTML then ["attachTTMLRenderingDiv"] else []) ++
       ["setAutoPlay(false)", "setProtectionData", "attachSource"])

/-- A JS method call on a possibly-`undefined` receiver: throws a
TypeError when the receiver is absent. -/
def jsCall {α : Type} (recv : Option α) (act : String) : Except String String :=
  match recv with
  | none => .error ("TypeError: cannot call " ++ act ++ " of undefined")
  | some _ => .ok act

/-- `Html5DashJS.prototype.dispose` (source lines 814-829): each engine /
player access is guarded by an `if`, so no call can hit an `undefined`
receiver.  Returns the new state and the teardown actions performed. -/
def dispose (st : AdapterState) : Except String (AdapterState × List String) := do
  let acts1 ←
    if st.mediaPlayer_.isSome then do
      let a1 ← jsCall st.mediaPlayer_ "mediaPlayer_.off(ERROR)"
      let a2 ← jsCall st.mediaPlayer_ "mediaPlayer_.off(MANIFEST_LOADED)"
      let a3 ← jsCall st.mediaPlayer_ "mediaPlayer_.reset()"
      pure [a1, a2, a3]
    else pure []
  let st1 := if st.playerDash then { st with playerDash := false } else st
  let acts2 ←
    if st.ttmlContainer_.isSome then do
      let a1 ← jsCall st.ttmlContainer_ "ttmlContainer_.dispose()"
      pure [a1, "player.removeChild(TTMLTextTrackDisplay)"]
    else pure []
  pure ({ st1 with ttmlContainer_ := st1.ttmlContainer_ }, acts1 ++ acts2)

/-! ## Audio track change handler (lines 22-30 and 76-89) -/

/-- A host-player (video.js) audio track, as read by the handler. -/
structure VjsAudioTrack : Type where
  id : String
  enabled : Bool
deriving DecidableEq

/-- A dash.js audio track, as read by the handler. -/
structure DashAudioTrack : Type where
  index : Nat
deriving DecidableEq

/-- `generateIdFromTrackIndex` (source lines 22-24). -/
def generateIdFromTrackIndex (index : Nat) : String :=
  "dash-audio-" ++ Nat.repr index

/-- `findDashAudioTrack` (source lines 26-30): JS `Array.prototype.find`. -/
def findDashAudioTrack (subDashAudioTracks : List DashAudioTrack)
    (videojsAudioTrack : VjsAudioTrack) : Option DashAudioTrack :=
  subDashAudioTracks.find?
    (fun t => generateIdFromTrackIndex t.index == videojsAudioTrack.id)

/-- The `change` handler's `for` loop (source lines 76-89): for every
enabled host track it looks the dash track up by derived id and calls
`mediaPlayer.setCurrentTrack` with the result; the `continue` then merely
proceeds with the loop.  The engine's current track (in scope via
`mediaPlayer`) is never read.  The result is the ordered list of
`setCurrentTrack` arguments. -/
def audioTracksChangeHandler (currentEngineTrack : Option DashAudioTrack)
    (dashAudioTracks : List DashAudioTrack) :
    List VjsAudioTrack → List (Option DashAudioTrack)
  | [] => []
  | t :: rest =>
    if t.enabled then
      findDashAudioTrack dashAudioTracks t ::
        audioTracksChangeHandler currentEngineTrack dashAudioTracks rest
    else
      audioTracksChangeHandler currentEngineTrack dashAudioTracks rest

/-! ## Source-handler probe (lines 896-953) -/

/-- A playback source as consumed by the probe. -/
structure ProbeSource : Type where
  type : Option String
  src : Option String
  keySystemOptions : Option (List KSEntry)
deriving DecidableEq

/-- A hook as it acts on a probe source (the copy it is handed). -/
abbrev PHook := ProbeSource → ProbeSource

/-- `videojs.DashSourceHandler.canPlayType` (source lines 945-953):
`/^application\/dash\+xml/i.test(type)`; an absent `type` coerces to the
string `"undefined"`, which does not match. -/
def canPlayType (type : Option String) : String :=
  match type with
  | none => ""
  | some t =>
    if startsWithL (strToLower t).data "application/dash+xml".data then "probably"
    else ""

/-- `JSON.parse(JSON.stringify(source))` on a plain data object: a fresh
object with the same value. -/
def jsonCopy (s : ProbeSource) : ProbeSource := s

/-- `canHandleKeySystems` (source lines 896-917), value level: deep-copy
the source, run the `updatesource` hooks on the copy, and refuse (return
`false`) exactly when the resulting source has `keySystemOptions` (arrays
are always truthy) while the runtime has no encrypted-media capability
(`eme` models `navigator.requestMediaKeySystemAccess || videoEl.msSetMediaKeys`). -/
def canHandleKeySystems (hooks : List PHook) (eme : Bool)
    (source : ProbeSource) : Bool :=
  let copied := jsonCopy source
  let processed := hooks.foldl (fun acc h => h acc) copied
  if processed.keySystemOptions.isSome && !eme then false else true

/-- `canHandleSource` (source lines 921-935): `''` when
`canHandleKeySystems` refuses; `'probably'` when `canPlayType(source.type)`
is truthy; `'maybe'` when `/\.mpd/i` matches `source.src` (an absent `src`
coerces to `"undefined"`); `''` otherwise. -/
def canHandleSource (hooks : List PHook) (eme : Bool)
    (source : ProbeSource) : String :=
  if !canHandleKeySystems hooks eme source then ""
  else if canPlayType source.type != "" then "probably"
  else if strContains (strToLower (source.src.getD "undefined")) ".mpd" then "maybe"
  else ""

/-- A store of source objects, for the object-identity (mutation) view of
the probe. -/
abbrev SrcStore := List ProbeSource

/-- Default value used for dangling reads from a `SrcStore`. -/
def emptyProbeSource : ProbeSource := ⟨none, none, none⟩

/-- `source = hook(source)` in the store view: the hook reads the object
its argument references, may rewrite that object in place, and returns its
argument. -/
def runHookSt (p : SrcStore × Nat) (h : PHook) : SrcStore × Nat :=
  (p.1.set p.2 (h (p.1.getD p.2 emptyProbeSource)), p.2)

/-- `canHandleKeySystems` in the store view (source lines 896-917): line
898 allocates a fresh copy of the caller's object; the hooks then act on
the copy; the encrypted-media check reads the processed copy. -/
def canHandleKeySystemsSt (hooks : List PHook) (eme : Bool)
    (σ : SrcStore) (r : Nat) : SrcStore × Bool :=
  let σ1 := σ ++ [σ.getD r emptyProbeSource]
  let p := hooks.foldl runHookSt (σ1, σ.length)
  (p.1,
    if (p.1.getD p.2 emptyProbeSource).keySystemOptions.isSome && !eme then false
    else true)

/-! ## Caption style overlay (`tryUpdateStyle` lines 348-355, `removeStyle`
lines 357-366, `updateStyle` lines 459-532)

A "rejecting runtime" is modelled by a predicate on (property, value):
older platforms throw on certain style writes.  A plain JS assignment
`el.style[p] = v` then throws; `tryUpdateStyle` swallows the throw. -/

/-- Which style writes the runtime throws on. -/
abbrev RejectFn := String → String → Bool

/-- `tryUpdateStyle` (source lines 348-355): the write is attempted inside
`try`, so a rejected write leaves the style untouched and never throws. -/
def tryUpdateStyle (rejects : RejectFn) (style : List (String × String))
    (prop rule : String) : List (String × String) :=
  if rejects prop rule then style else objSet style prop rule

/-- A plain `el.style[p] = v` assignment: throws on a rejecting runtime. -/
def rawStyleWrite (rejects : RejectFn) (style : List (String × String))
    (prop rule : String) : Except String (List (String × String)) :=
  if rejects prop rule then .error ("style write rejected: " ++ prop)
  else .ok (objSet style prop rule)

/-- `darkGray` (source line 318). -/
def darkGray : String := "#222"

/-- `lightGray` (source line 319). -/
def lightGray : String := "#ccc"

/-- `fontMap` (source lines 320-331). -/
def fontMap : List (String × String) :=
  [("monospace", "monospace"),
   ("sansSerif", "sans-serif"),
   ("serif", "serif"),
   ("monospaceSansSerif", "\"Andale Mono\", \"Lucida Console\", monospace"),
   ("monospaceSerif", "\"Courier New\", monospace"),
   ("proportionalSansSerif", "sans-serif"),
   ("proportionalSerif", "serif"),
   ("casual", "\"Comic Sans MS\", Impact, fantasy"),
   ("script", "\"Monotype Corsiva\", cursive"),
   ("smallcaps", "\"Andale Mono\", \"Lucida Console\", monospace, sans-serif")]

/-- The caption-settings values (`this.player_.textTrackSettings.getValues()`). -/
structure Overrides : Type where
  color : Option String
  textOpacity : Option ℚ
  backgroundColor : Option String
  backgroundOpacity : Option ℚ
  windowColor : Option String
  windowOpacity : Option ℚ
  edgeStyle : Option String
  fontPercent : Option ℚ
  fontFamily : Option String
deriving DecidableEq

/-- All-absent override values. -/
def noOverrides : Overrides :=
  ⟨none, none, none, none, none, none, none, none, none⟩

/-- One `<span>` inside the caption node, with its own style and its
parent node's style. -/
structure SpanEl : Type where
  style : List (String × String)
  parentStyle : List (String × String)
deriving DecidableEq

/-- The caption node: its own style and the spans found by
`getElementsByTagName('span')`. -/
structure CaptionDiv : Type where
  style : List (String × String)
  spans : List SpanEl
deriving DecidableEq

/-- JS `x || dflt` on a possibly-absent string. -/
def jsOr (x : Option String) (dflt : String) : String :=
  if truthyStr x then x.getD "" else dflt

/-- Split leading decimal digits off a character list. -/
def takeDigits : List Char → List Char × List Char
  | [] => ([], [])
  | c :: rest =>
    if '0' ≤ c ∧ c ≤ '9' then
      let p := takeDigits rest
      (c :: p.1, p.2)
    else ([], c :: rest)

/-- Value of a list of decimal digit characters. -/
def digitsVal (l : List Char) : Nat :=
  l.foldl (fun acc c => 10 * acc + (c.toNat - 48)) 0

/-- JS `window.parseFloat` restricted to simple non-negative decimals
(enough for CSS font sizes); `none` models `NaN`. -/
def jsParseFloat (s : String) : Option ℚ :=
  let p := takeDigits s.data
  if p.1.isEmpty then none
  else
    match p.2 with
    | '.' :: rest2 =>
      let f := takeDigits rest2
      some (mkRat ((digitsVal p.1 * 10 ^ f.1.length + digitsVal f.1 : Nat) : Int)
        (10 ^ f.1.length))
    | _ => some ((digitsVal p.1 : Nat) : ℚ)

/-- Exact multiplication of JS numbers (kernel-friendly, via `mkRat`). -/
def qMul (a b : ℚ) : ℚ := mkRat (a.num * b.num) (a.den * b.den)

/-- `removeStyle` (source lines 357-366) as it acts on one style object:
`el.style.left = null; el.style.width = '100%'`. -/
def removeStyleObj (rejects : RejectFn) (style : List (String × String)) :
    Except String (List (String × String)) :=
  (rawStyleWrite rejects style "left" "").bind fun s1 =>
  rawStyleWrite rejects s1 "width" "100%"

/-- `removeStyle` applied to one span (both of the element's writes, as in
the recursion over `el.children`). -/
def removeStyleSpan (rejects : RejectFn) (sp : SpanEl) : Except String SpanEl :=
  (removeStyleObj rejects sp.style).bind fun s =>
  .ok { sp with style := s }

/-- The body of the per-span loop of `updateStyle` (source lines 476-531),
for one span.  Every plain assignment can throw on a rejecting runtime;
only the three opacity-derived writes go through `tryUpdateStyle`.  The
`overrides.windowColor && !overrides.windowOpacity` branch reads
`span.parent` (line 500), which is `undefined`, so it always throws. -/
def processSpan (rejects : RejectFn) (ov : Overrides) (sp : SpanEl) :
    Except String SpanEl :=
  (rawStyleWrite rejects sp.parentStyle "textAlign" "center").bind fun ps =>
  (if truthyStr ov.color then
      rawStyleWrite rejects sp.style "color" (ov.color.getD "")
    else .ok sp.style).bind fun st =>
  (if truthyNum ov.textOpacity then
      (constructColor (jsOr ov.color "#fff") (ov.textOpacity.getD 0)).bind fun c =>
      .ok (tryUpdateStyle rejects st "color" c)
    else .ok st).bind fun st =>
  (if truthyStr ov.backgroundColor then
      rawStyleWrite rejects st "backgroundColor" (ov.backgroundColor.getD "")
    else .ok st).bind fun st =>
  (if truthyNum ov.backgroundOpacity then
      (constructColor (jsOr ov.backgroundColor "#000")
        (ov.backgroundOpacity.getD 0)).bind fun c =>
      .ok (tryUpdateStyle rejects st "backgroundColor" c)
    else .ok st).bind fun st =>
  (if truthyStr ov.windowColor then
      if truthyNum ov.windowOpacity then
        (constructColor (ov.windowColor.getD "") (ov.windowOpacity.getD 0)).bind
          fun c => .ok (tryUpdateStyle rejects ps "backgroundColor" c)
      else
        .error "TypeError: cannot read style of undefined (span.parent)"
    else .ok ps).bind fun ps =>
  (if truthyStr ov.edgeStyle then
      if ov.edgeStyle = some "dropshadow" then
        rawStyleWrite rejects st "textShadow"
          ("2px 2px 3px " ++ darkGray ++ ", 2px 2px 4px " ++ darkGray ++
            ", 2px 2px 5px " ++ darkGray)
      else if ov.edgeStyle = some "raised" then
        rawStyleWrite rejects st "textShadow"
          ("1px 1px " ++ darkGray ++ ", 2px 2px " ++ darkGray ++
            ", 3px 3px " ++ darkGray)
      else if ov.edgeStyle = some "depressed" then
        rawStyleWrite rejects st "textShadow"
          ("1px 1px " ++ lightGray ++ ", 0 1px " ++ lightGray ++
            ", -1px -1px " ++ darkGray ++ ", 0 -1px " ++ darkGray)
      else if ov.edgeStyle = some "uniform" then
        rawStyleWrite rejects st "textShadow"
          ("0 0 4px " ++ darkGray ++ ", 0 0 4px " ++ darkGray ++
            ", 0 0 4px " ++ darkGray ++ ", 0 0 4px " ++ darkGray)
      else .ok st
    else .ok st).bind fun st =>
  (if truthyNum ov.fontPercent && (ov.fontPercent.getD 0 != 1) then
      (rawStyleWrite rejects st "fontSize"
        (match jsParseFloat ((objGet st "fontSize").getD "") with
         | none => "NaNpx"
         | some fs => decimalString (qMul fs (ov.fontPercent.getD 0)) ++ "px")).bind
        fun s1 =>
      (rawStyleWrite rejects s1 "height" "auto").bind fun s2 =>
      (rawStyleWrite rejects s2 "top" "auto").bind fun s3 =>
      rawStyleWrite rejects s3 "bottom" "2px"
    else .ok st).bind fun st =>
  (if truthyStr ov.fontFamily && (ov.fontFamily != some "default") then
      if ov.fontFamily = some "small-caps" then
        rawStyleWrite rejects st "fontVariant" "small-caps"
      else
        rawStyleWrite rejects st "fontFamily"
          ((objGet fontMap (ov.fontFamily.getD "")).getD "undefined")
    else .ok st).bind fun st =>
  .ok { style := st, parentStyle := ps }

/-- Map `processSpan`-style actions over the spans found in the caption
node, stopping at the first uncaught throw (the `for` loops of
`removeStyle` and `updateStyle`). -/
def mapSpansM (f : SpanEl → Except String SpanEl) :
    List SpanEl → Except String (List SpanEl)
  | [] => .ok []
  | sp :: rest =>
    (f sp).bind fun sp' =>
    (mapSpansM f rest).bind fun rest' =>
    .ok (sp' :: rest')

/-- The effective caption node:
`captionDiv = captionDiv || <component el firstChild>` (source line 467). -/
def effDiv (arg fallback : Option CaptionDiv) : Option CaptionDiv :=
  match arg with
  | some d => some d
  | none => fallback

/-- `updateStyle` (source lines 459-532): returns early (no style change)
when the player has no `textTrackSettings` or when no caption node exists;
otherwise applies `removeStyle` and the per-span loop.  `Except.error`
models an uncaught throw aborting the method (the JS partial mutations up
to the throw are not observed by this model). -/
def updateStyle (rejects : RejectFn) (hasSettings : Bool) (ov : Overrides)
    (argCaptionDiv fallbackDiv : Option CaptionDiv) :
    Except String (Option CaptionDiv) :=
  if !hasSettings then .ok (effDiv argCaptionDiv fallbackDiv)
  else
    match effDiv argCaptionDiv fallbackDiv with
    | none => .ok none
    | some d =>
      (removeStyleObj rejects d.style).bind fun s0 =>
      (mapSpansM (removeStyleSpan rejects) d.spans).bind fun sp1 =>
      (mapSpansM (processSpan rejects ov) sp1).bind fun sp2 =>
      .ok (some { style := s0, spans := sp2 })

/-! ## Spec-side predicates, for stating the claims against the code -/

/-- The finite-duration verdict a single manifest induces: a truthy
`mediaPresentationDuration` or a truthy last-period duration. -/
def specFlag (m : ManifestData) : Bool :=
  truthyNum m.mediaPresentationDuration ||
    (match m.Period_asArray.getLast? with
     | none => false
     | some p => truthyNum p.duration)

/-- Manifests on which `getDuration_` does not throw: a truthy
`mediaPresentationDuration` or a nonempty period list. -/
def wellFormedManifest (m : ManifestData) : Bool :=
  truthyNum m.mediaPresentationDuration || !m.Period_asArray.isEmpty

/-- Number of changes along a boolean trajectory starting at `b`. -/
def flipCount (b : Bool) : List Bool → Nat
  | [] => 0
  | x :: xs => (if x != b then 1 else 0) + flipCount x xs

/-- The spec's words: the manifest "lacks both `mediaPresentationDuration`
and a last-period duration" (read as: the fields are absent). -/
def lacksBothDurations (m : ManifestData) : Bool :=
  m.mediaPresentationDuration.isNone &&
    (match m.Period_asArray.getLast? with
     | none => true
     | some p => p.duration.isNone)

/-- The spec's words for one `buildDashJSProtData` output entry: a copy of
the input options in which a present `licenseUrl` has been renamed to
`serverURL` (here amended: only a truthy, i.e. non-empty, `licenseUrl` is
renamed), all other keys kept. -/
def optionsTransformed (o t : List (String × String)) : Prop :=
  (truthyStr (objGet o "licenseUrl") = true →
    objGet t "serverURL" = objGet o "licenseUrl" ∧
    objGet t "licenseUrl" = none ∧
    ∀ k, k ≠ "serverURL" → k ≠ "licenseUrl" → objGet t k = objGet o k) ∧
  (truthyStr (objGet o "licenseUrl") = false → t = o)

/-- The spec's words for the probe verdict (with the amendments the code
forces): `''` when the source carries `keySystemOptions` and the runtime
has no encrypted-media capability; else `'probably'` when the MIME type
begins with `application/dash+xml` (case-insensitively); else `'maybe'`
when the URL contains `.mpd` (case-insensitively); else `''`. -/
def specCanHandle (eme : Bool) (s : ProbeSource) : String :=
  if s.keySystemOptions.isSome ∧ eme = false then ""
  else if (match s.type with
           | none => false
           | some t => startsWithL (strToLower t).data "application/dash+xml".data) then
    "probably"
  else if (match s.src with
           | none => false
           | some u => strContains (strToLower u) ".mpd") then "maybe"
  else ""

/-- The spec's words: the URL "has a `.mpd` extension". -/
def hasMpdExt (u : String) : Bool :=
  endsWithL (strToLower u).data ".mpd".data

/-! ## Object-model lemmas -/

theorem objGet_objSet_self {α : Type} (o : List (String × α)) (k : String) (v : α) :
    objGet (objSet o k v) k = some v := by
  induction o with
  | nil => simp [objSet, objGet]
  | cons p rest ih =>
    obtain ⟨k', v'⟩ := p
    by_cases h : k' = k
    · simp [objSet, objGet, h]
    · simp [objSet, objGet, h, ih]

theorem objGet_objSet_ne {α : Type} (o : List (String × α)) (k k' : String) (v : α)
    (h : k' ≠ k) : objGet (objSet o k v) k' = objGet o k' := by
  induction o with
  | nil => simp [objSet, objGet, Ne.symm h]
  | cons p rest ih =>
    obtain ⟨k₀, v₀⟩ := p
    by_cases h₀ : k₀ = k
    · subst h₀
      simp [objSet, objGet, Ne.symm h]
    · simp only [objSet, if_neg h₀, objGet]
      by_cases h₁ : k₀ = k' <;> simp [h₁, ih]

theorem objGet_objDelete_self {α : Type} (o : List (String × α)) (k : String) :
    objGet (objDelete o k) k = none := by
  induction o with
  | nil => simp [objDelete, objGet]
  | cons p rest ih =>
    obtain ⟨k₀, v₀⟩ := p
    by_cases h₀ : k₀ = k
    · simp [objDelete, h₀, ih]
    · simp [objDelete, objGet, h₀, ih]

theorem objGet_objDelete_ne {α : Type} (o : List (String × α)) (k k' : String)
    (h : k' ≠ k) : objGet (objDelete o k) k' = objGet o k' := by
  induction o with
  | nil => simp [objDelete]
  | cons p rest ih =>
    obtain ⟨k₀, v₀⟩ := p
    by_cases h₀ : k₀ = k
    · subst h₀
      simp [objDelete, objGet, Ne.symm h, ih]
    · simp only [objDelete, if_neg h₀, objGet]
      by_cases h₁ : k₀ = k' <;> simp [h₁, ih]

theorem getD_concat_length {α : Type} (σ : List α) (x d : α) :
    (σ ++ [x]).getD σ.length d = x := by
  induction σ with
  | nil => rfl
  | cons a rest ih => simp [ih]

theorem set_concat_length {α : Type} (σ : List α) (x v : α) :
    (σ ++ [x]).set σ.length v = σ ++ [v] := by
  induction σ with
  | nil => rfl
  | cons a rest ih => simp [List.set, ih]

/-! ## C5: no-src construction and safe disposal -/

/-- **C5** (confirmed).  For every source whose `src` field is empty or
absent, construction short-circuits before any engine action (no engine
instance is created) and `dispose()` succeeds without error. -/
theorem claim_C5 (src : Option String) (useTTML : Bool)
    (h : src = none ∨ src = some "") :
    construct src useTTML =
      ({ hasFiniteDuration_ := false, mediaPlayer_ := none,
         ttmlContainer_ := none, playerDash := true }, []) ∧
    (construct src useTTML).1.mediaPlayer_ = none ∧
    dispose (construct src useTTML).1 =
      .ok ({ hasFiniteDuration_ := false, mediaPlayer_ := none,
             ttmlContainer_ := none, playerDash := false }, []) := by
  rcases h with h | h <;> subst h <;> exact ⟨rfl, rfl, rfl⟩

/-- Witness for C5 at the concrete source `{ src: undefined }`. -/
theorem claim_C5_witness :
    construct none false =
      ({ hasFiniteDuration_ := false, mediaPlayer_ := none,
         ttmlContainer_ := none, playerDash := true }, []) ∧
    (construct none false).1.mediaPlayer_ = none ∧
    dispose (construct none false).1 =
      .ok ({ hasFiniteDuration_ := false, mediaPlayer_ := none,
             ttmlContainer_ := none, playerDash := false }, []) :=
  claim_C5 none false (Or.inl rfl)

/-! ## C8: audio-track change handler -/

/-- **C8** (amended).  The change handler issues one
`setCurrentTrack(findDashAudioTrack(dashTracks, t))` call for every
enabled host track `t`, resolving by the derived `"dash-audio-" + index`
identifier, regardless of the engine's active track (the right-hand side
does not depend on `cur`): the code performs no comparison with the
engine's current track before switching. -/
theorem claim_C8 (cur : Option DashAudioTrack) (dash : List DashAudioTrack)
    (vjs : List VjsAudioTrack) :
    audioTracksChangeHandler cur dash vjs =
      (vjs.filter (fun t => t.enabled)).map (findDashAudioTrack dash) := by
  induction vjs with
  | nil => rfl
  | cons t rest ih =>
    by_cases h : t.enabled <;>
      simp [audioTracksChangeHandler, h, ih, List.filter_cons]

/-- **C8 counterexample.**  With a single enabled host track whose matching
dash track `⟨0⟩` is already the engine's current track, the handler still
calls `setCurrentTrack` — refuting "instructs the engine to switch only
when the enabled host track differs from the engine's active track". -/
theorem claim_C8_counterexample :
    findDashAudioTrack [⟨0⟩] ⟨"dash-audio-0", true⟩ = some ⟨0⟩ ∧
    audioTracksChangeHandler (some ⟨0⟩) [⟨0⟩] [⟨"dash-audio-0", true⟩] =
      [some ⟨0⟩] := by
  decide

/-! ## C10: the probe never mutates the caller's source -/

/-- The hook loop of `canHandleKeySystems` only ever rewrites the freshly
allocated copy at index `σ.length`. -/
theorem foldl_runHookSt (hooks : List PHook) (σ : SrcStore) (x : ProbeSource) :
    ∃ y, List.foldl runHookSt (σ ++ [x], σ.length) hooks = (σ ++ [y], σ.length) := by
  induction hooks generalizing x with
  | nil => exact ⟨x, rfl⟩
  | cons h hs ih =>
    have hget : (σ ++ [x]).getD σ.length emptyProbeSource = x :=
      getD_concat_length σ x emptyProbeSource
    have hset : (σ ++ [x]).set σ.length (h x) = σ ++ [h x] :=
      set_concat_length σ x (h x)
    obtain ⟨y, hy⟩ := ih (h x)
    refine ⟨y, ?_⟩
    simp only [List.foldl_cons, runHookSt, hget, hset]
    exact hy

/-- **C10** (confirmed).  `canHandleKeySystems` runs the `updatesource`
hooks on a fresh deep copy of the source: whatever the hooks do to their
argument, the resulting store is the caller's store with exactly one new
object appended — every pre-existing object, in particular the caller's
source, is untouched. -/
theorem claim_C10 (hooks : List PHook) (eme : Bool) (σ : SrcStore) (r : Nat) :
    ∃ c, (canHandleKeySystemsSt hooks eme σ r).1 = σ ++ [c] := by
  obtain ⟨y, hy⟩ := foldl_runHookSt hooks σ (σ.getD r emptyProbeSource)
  refine ⟨y, ?_⟩
  have hdef : (canHandleKeySystemsSt hooks eme σ r).1 =
      (List.foldl runHookSt (σ ++ [σ.getD r emptyProbeSource], σ.length) hooks).1 := rfl
  rw [hdef, hy]

/-! ## C4: `updatesource` hooks run in registration order -/

/-- Registering hooks one at a time via `Html5DashJS.hook` appends them to
the slot's list in order. -/
theorem registerAll_hooksList (t : String) (hs : List SHook) (reg : HookReg) :
    (objGet (registerAll reg t hs) t).getD [] = (objGet reg t).getD [] ++ hs := by
  induction hs generalizing reg with
  | nil => simp [registerAll]
  | cons h rest ih =>
    simp [registerAll, ih, hookAdd, hooksOp, objGet_objSet_self]

/-- **C4** (confirmed).  Session construction applies the registered
`updatesource` hooks to the source in registration order, each hook
receiving the previous hook's result (a left fold); in particular two
hooks that each set a distinct marker field leave both markers on the
effective source, applied in registration order. -/
theorem claim_C4 (hs : List SHook) (s : Source) (k1 v1 k2 v2 : String) :
    sessionSource (registerAll [] "updatesource" hs) s =
      hs.foldl (fun acc h => h acc) s ∧
    sessionSource (registerAll [] "updatesource"
        [fun src => objSet src k1 v1, fun src => objSet src k2 v2]) s =
      objSet (objSet s k1 v1) k2 v2 := by
  constructor
  · simp [sessionSource, hooksOp, registerAll_hooksList, objGet]
  · simp [sessionSource, hooksOp, registerAll_hooksList, objGet]

/-! ## C1: the error-translation taxonomy -/

/-- **C1 counterexample.**  An engine `mediasource` error whose message
contains `MEDIA_ERR_NETWORK` does *not* always produce host code 2: the
`MEDIA_ERR_ABORTED` substring is tested first, so a message containing
both yields code 1. -/
theorem claim_C1_counterexample :
    strContains "MEDIA_ERR_ABORTED MEDIA_ERR_NETWORK" "MEDIA_ERR_NETWORK" = true ∧
    retriggerError_ ⟨"mediasource", .str "MEDIA_ERR_ABORTED MEDIA_ERR_NETWORK"⟩ =
      .ok (some ⟨1, "MEDIA_ERR_ABORTED MEDIA_ERR_NETWORK"⟩) := by
  decide

/-- **C1** (amended).  A `manifestError` event with `event.event.id ===
'codec'` produces host code 4 with the original engine message; a
`mediasource` event whose message contains `MEDIA_ERR_NETWORK` — and, as
the code's match order forces, does not contain `MEDIA_ERR_ABORTED` —
produces host code 2 with the original message. -/
theorem claim_C1 (m1 m2 : String)
    (hnet : strContains m2 "MEDIA_ERR_NETWORK" = true)
    (habort : strContains m2 "MEDIA_ERR_ABORTED" = false) :
    retriggerError_ ⟨"manifestError", .obj "codec" m1⟩ = .ok (some ⟨4, m1⟩) ∧
    retriggerError_ ⟨"mediasource", .str m2⟩ = .ok (some ⟨2, m2⟩) := by
  constructor
  · simp [retriggerError_, ErrPayload.idField, ErrPayload.messageField]
  · simp [retriggerError_, hnet, habort]

/-- Witness for C1 at concrete events. -/
theorem claim_C1_witness :
    retriggerError_ ⟨"manifestError", .obj "codec" "Codec not supported"⟩ =
      .ok (some ⟨4, "Codec not supported"⟩) ∧
    retriggerError_ ⟨"mediasource", .str "mediasource error: MEDIA_ERR_NETWORK"⟩ =
      .ok (some ⟨2, "mediasource error: MEDIA_ERR_NETWORK"⟩) :=
  claim_C1 "Codec not supported" "mediasource error: MEDIA_ERR_NETWORK"
    (by decide) (by decide)

/-! ## C9: the source-handler probe -/

/-- **C9 counterexample.**  A URL merely containing `.mpd` — without a
`.mpd` extension — already yields `'maybe'`: the probe tests the
`/\.mpd/i` regex anywhere in the URL, refuting "`''` otherwise". -/
theorem claim_C9_counterexample :
    canHandleSource [] true ⟨none, some "https://example.com/stream.mpdx", none⟩ =
      "maybe" ∧
    hasMpdExt "https://example.com/stream.mpdx" = false := by
  decide

/-- **C9** (amended).  With no `updatesource` hooks registered, the probe
returns `''` whenever the source declares `keySystemOptions` and the
runtime lacks encrypted-media capability; otherwise `'probably'` when the
MIME type begins with `application/dash+xml` (case-insensitively),
`'maybe'` when the URL contains `.mpd` (case-insensitively, not only as an
extension), and `''` otherwise. -/
theorem claim_C9 (eme : Bool) (s : ProbeSource) :
    canHandleSource [] eme s = specCanHandle eme s := by
  obtain ⟨ty, src, kso⟩ := s
  have hund : strContains (strToLower "undefined") ".mpd" = false := by decide
  simp only [canHandleSource, canHandleKeySystems, jsonCopy, List.foldl_nil,
    specCanHandle, canPlayType]
  cases kso <;> cases eme <;> cases ty <;> cases src <;> simp [hund]

/-! ## C2: `buildDashJSProtData` -/

/-- `renameLicenseUrl` realizes the (amended) per-entry spec. -/
theorem renameLicenseUrl_spec (o : List (String × String)) :
    optionsTransformed o (renameLicenseUrl o) := by
  constructor
  · intro h
    unfold renameLicenseUrl
    rw [if_pos h]
    refine ⟨?_, objGet_objDelete_self _ _, ?_⟩
    · rw [objGet_objDelete_ne _ _ _ (by decide), objGet_objSet_self]
      cases hv : objGet o "licenseUrl" with
      | none => rw [hv] at h; simp [truthyStr] at h
      | some v => simp [hv]
    · intro k hk1 hk2
      rw [objGet_objDelete_ne _ _ _ hk2, objGet_objSet_ne _ _ _ _ hk1]
  · intro h
    unfold renameLicenseUrl
    rw [if_neg (by simp [h])]

/-- `buildLoop` only appends to the store: every pre-existing object is
preserved, and the store only grows. -/
theorem buildLoop_store_preserved (entries : List KSEntry) (σ : OptStore)
    (out : List (String × Nat)) :
    (∀ r, r < σ.length →
      (buildLoop σ out entries).1.getD r [] = σ.getD r []) ∧
    σ.length ≤ (buildLoop σ out entries).1.length := by
  induction entries generalizing σ out with
  | nil => exact ⟨fun r _ => rfl, le_refl _⟩
  | cons ks rest ih =>
    obtain ⟨h1, h2⟩ := ih (σ ++ [renameLicenseUrl (σ.getD ks.optionsRef [])])
      (objSet out ks.name σ.length)
    constructor
    · intro r hr
      have hr' : r < (σ ++ [renameLicenseUrl (σ.getD ks.optionsRef [])]).length := by
        simp; omega
      rw [buildLoop, h1 r hr', List.getD_append _ _ _ _ hr]
    · rw [buildLoop]
      refine le_trans ?_ h2
      simp

/-- `buildLoop` leaves output keys that are not among the processed entry
names untouched. -/
theorem buildLoop_out_preserved (entries : List KSEntry) (σ : OptStore)
    (out : List (String × Nat)) (k : String)
    (hk : k ∉ entries.map KSEntry.name) :
    objGet (buildLoop σ out entries).2 k = objGet out k := by
  induction entries generalizing σ out with
  | nil => rfl
  | cons ks rest ih =>
    simp only [List.map_cons, List.mem_cons] at hk
    push_neg at hk
    rw [buildLoop, ih _ _ (by exact hk.2), objGet_objSet_ne _ _ _ _ hk.1]

/-- Each input entry ends up, under its name, as a fresh object holding
the conditionally renamed copy of its options. -/
theorem buildLoop_entries (entries : List KSEntry) (σ : OptStore)
    (out : List (String × Nat))
    (hnodup : (entries.map KSEntry.name).Nodup)
    (href : ∀ e ∈ entries, e.optionsRef < σ.length) :
    ∀ e ∈ entries, ∃ ref,
      objGet (buildLoop σ out entries).2 e.name = some ref ∧
      (buildLoop σ out entries).1.getD ref [] =
        renameLicenseUrl (σ.getD e.optionsRef []) := by
  induction entries generalizing σ out with
  | nil => intro e he; cases he
  | cons ks rest ih =>
    intro e he
    simp only [List.map_cons, List.nodup_cons] at hnodup
    have hσlen : σ.length <
        (σ ++ [renameLicenseUrl (σ.getD ks.optionsRef [])]).length := by simp
    rcases List.mem_cons.mp he with he | he
    · subst he
      refine ⟨σ.length, ?_, ?_⟩
      · rw [buildLoop, buildLoop_out_preserved _ _ _ _ hnodup.1,
          objGet_objSet_self]
      · rw [buildLoop,
          (buildLoop_store_preserved rest _ _).1 σ.length hσlen,
          getD_concat_length]
    · have href' : ∀ x ∈ rest,
          x.optionsRef < (σ ++ [renameLicenseUrl (σ.getD ks.optionsRef [])]).length := by
        intro x hx
        have := href x (List.mem_cons_of_mem _ hx)
        simp
        omega
      obtain ⟨ref, hout, hstore⟩ := ih _ _ hnodup.2 href' e he
      refine ⟨ref, by rw [buildLoop]; exact hout, ?_⟩
      rw [buildLoop, hstore,
        List.getD_append _ _ _ _ (href e (List.mem_cons_of_mem _ he))]

/-- **C2** (amended).  `buildDashJSProtData` returns `null` for an absent
or non-array key-system-option list; otherwise (for entries with distinct
names — duplicate names collapse to the last entry) it maps each entry's
name to a fresh copy of that entry's options in which a *truthy*
(non-empty) `licenseUrl` — presence alone does not suffice — is renamed to
`serverURL`, all other keys kept; and no pre-existing object (in
particular no input options object) is ever mutated. -/
theorem claim_C2 (σ : OptStore) (entries : List KSEntry)
    (hnodup : (entries.map KSEntry.name).Nodup)
    (href : ∀ e ∈ entries, e.optionsRef < σ.length) :
    (buildDashJSProtData σ .absent).2 = none ∧
    (buildDashJSProtData σ .nonArray).2 = none ∧
    (∃ out, (buildDashJSProtData σ (.arr entries)).2 = some out ∧
      ∀ e ∈ entries, ∃ ref, objGet out e.name = some ref ∧
        optionsTransformed (σ.getD e.optionsRef [])
          ((buildDashJSProtData σ (.arr entries)).1.getD ref [])) ∧
    (∀ r, r < σ.length →
      (buildDashJSProtData σ (.arr entries)).1.getD r [] = σ.getD r []) := by
  refine ⟨rfl, rfl, ?_, ?_⟩
  · refine ⟨(buildLoop σ [] entries).2, rfl, ?_⟩
    intro e he
    obtain ⟨ref, hout, hstore⟩ := buildLoop_entries entries σ [] hnodup href e he
    refine ⟨ref, hout, ?_⟩
    have : (buildDashJSProtData σ (.arr entries)).1 = (buildLoop σ [] entries).1 := rfl
    rw [this, hstore]
    exact renameLicenseUrl_spec _
  · intro r hr
    exact (buildLoop_store_preserved entries σ []).1 r hr

/-- **C2 counterexample.**  A `licenseUrl` that is *present* but empty
(`""`, falsy) is not renamed: the output object keeps `licenseUrl` and
gains no `serverURL`, refuting "whenever `licenseUrl` is present". -/
theorem claim_C2_counterexample :
    objGet ((buildDashJSProtData [[("licenseUrl", "")]]
        (.arr [⟨"com.widevine.alpha", 0⟩])).1.getD 1 []) "licenseUrl" = some "" ∧
    objGet ((buildDashJSProtData [[("licenseUrl", "")]]
        (.arr [⟨"com.widevine.alpha", 0⟩])).1.getD 1 []) "serverURL" = none ∧
    (buildDashJSProtData [[("licenseUrl", "")]]
        (.arr [⟨"com.widevine.alpha", 0⟩])).2 = some [("com.widevine.alpha", 1)] := by
  decide

/-- Witness for C2 at a concrete store and entry list. -/
theorem claim_C2_witness :
    (buildDashJSProtData [[("licenseUrl", "https://lic.example"), ("x", "1")]]
        (.arr [⟨"com.widevine.alpha", 0⟩])).2 = some [("com.widevine.alpha", 1)] ∧
    objGet ((buildDashJSProtData [[("licenseUrl", "https://lic.example"), ("x", "1")]]
        (.arr [⟨"com.widevine.alpha", 0⟩])).1.getD 1 []) "serverURL" =
      some "https://lic.example" ∧
    objGet ((buildDashJSProtData [[("licenseUrl", "https://lic.example"), ("x", "1")]]
        (.arr [⟨"com.widevine.alpha", 0⟩])).1.getD 1 []) "licenseUrl" = none ∧
    (buildDashJSProtData [[("licenseUrl", "https://lic.example"), ("x", "1")]]
        (.arr [⟨"com.widevine.alpha", 0⟩])).1.getD 0 [] =
      [("licenseUrl", "https://lic.example"), ("x", "1")] := by
  obtain ⟨-, -, ⟨out, hout, hall⟩, hpres⟩ :=
    claim_C2 [[("licenseUrl", "https://lic.example"), ("x", "1")]]
      [⟨"com.widevine.alpha", 0⟩] (by decide) (by decide)
  have hout2 : (buildDashJSProtData [[("licenseUrl", "https://lic.example"), ("x", "1")]]
      (.arr [⟨"com.widevine.alpha", 0⟩])).2 = some [("com.widevine.alpha", 1)] := by
    decide
  rw [hout2] at hout
  obtain rfl : out = [("com.widevine.alpha", 1)] := (Option.some_inj.mp hout).symm
  obtain ⟨ref, href, htr⟩ := hall ⟨"com.widevine.alpha", 0⟩ (by decide)
  obtain rfl : ref = 1 := by
    rw [show objGet [("com.widevine.alpha", 1)] "com.widevine.alpha" = some 1 from rfl]
      at href
    exact (Option.some_inj.mp href).symm
  obtain ⟨hsrv, hlic, -⟩ := htr.1 (by decide)
  refine ⟨hout2, ?_, ?_, (hpres 0 (by decide)).trans (by decide)⟩
  · exact hsrv.trans (by decide)
  · exact hlic

/-! ## C3: duration reporting -/

/-- On a manifest it does not throw on, `getDuration_` sets the flag to the
manifest's verdict and fires `durationchange` exactly when that differs
from the old flag. -/
theorem getDuration_eq_spec (flag : Bool) (m : ManifestData)
    (h : wellFormedManifest m = true) :
    getDuration_ flag m = some (specFlag m, specFlag m != flag) := by
  by_cases h1 : truthyNum m.mediaPresentationDuration
  · simp [getDuration_, specFlag, h1]
  · simp only [wellFormedManifest, Bool.or_eq_true, h1, false_or,
      Bool.not_eq_true'] at h
    cases hL : m.Period_asArray.getLast? with
    | none =>
      rw [List.getLast?_eq_none_iff] at hL
      rw [hL] at h
      simp at h
    | some p => simp [getDuration_, specFlag, h1, hL]

/-- Folding `getDuration_` over well-formed manifests: the final flag is
the last manifest's verdict and the number of `durationchange` events is
the number of verdict flips along the way. -/
theorem processManifests_spec (flag : Bool) (ms : List ManifestData)
    (h : ∀ m ∈ ms, wellFormedManifest m = true) :
    processManifests flag ms =
      some ((ms.map specFlag).getLastD flag, flipCount flag (ms.map specFlag)) := by
  induction ms generalizing flag with
  | nil => simp [processManifests, flipCount]
  | cons m rest ih =>
    have hm := h m (List.mem_cons_self m rest)
    have hrest := ih (specFlag m) (fun x hx => h x (List.mem_cons_of_mem _ hx))
    simp only [processManifests, getDuration_eq_spec flag m hm, hrest,
      List.map_cons, List.getLastD_cons, flipCount]

/-- **C3** (amended).  `duration()` returns Infinity when the engine
reports a dynamic stream and no finite duration has been observed, and
the engine-reported duration otherwise; over any sequence of
`MANIFEST_LOADED` events whose manifests are well-formed (nonempty period
list or truthy `mediaPresentationDuration` — otherwise the handler
throws), the flag after each event equals that manifest's verdict (truthy
`mediaPresentationDuration` or truthy last-period duration; mere absence
is not what is tested — a present-but-zero duration also counts as
"lacking"), and exactly one `durationchange` fires per flip, none when the
flag is unchanged. -/
theorem claim_C3 (isDyn flag flag0 : Bool) (d : JsNum) (ms : List ManifestData)
    (hwf : ∀ m ∈ ms, wellFormedManifest m = true) :
    (isDyn = true → flag = false → duration isDyn flag d = .inf) ∧
    (isDyn = false ∨ flag = true → duration isDyn flag d = d) ∧
    processManifests flag0 ms =
      some ((ms.map specFlag).getLastD flag0, flipCount flag0 (ms.map specFlag)) := by
  refine ⟨?_, ?_, processManifests_spec flag0 ms hwf⟩
  · intro h1 h2
    subst h1; subst h2
    rfl
  · rintro (h | h) <;> subst h <;> simp [duration]

/-- Witness for C3: a VOD manifest then a live manifest — the flag goes
`false → true → false`, firing two `durationchange` events. -/
theorem claim_C3_witness :
    duration true false (.fin 8) = .inf ∧
    duration false false (.fin 8) = .fin 8 ∧
    processManifests false
      [⟨some 60, []⟩, ⟨none, [⟨none⟩]⟩] = some (false, 2) := by
  obtain ⟨h1, h2, h3⟩ := claim_C3 true false false (.fin 8)
    [⟨some 60, []⟩, ⟨none, [⟨none⟩]⟩] (by decide)
  refine ⟨h1 rfl rfl, ?_, h3.trans (by decide)⟩
  exact (claim_C3 false false false (.fin 8) [] (by simp)).2.1 (Or.inl rfl)

/-- **C3 counterexample.**  A manifest whose `mediaPresentationDuration`
is present but `0` (and whose last period has no duration) flips the flag
to `false` and fires `durationchange`, although the manifest does not
*lack* `mediaPresentationDuration` — refuting "becoming false exactly when
the manifest lacks both". -/
theorem claim_C3_counterexample :
    getDuration_ true ⟨some 0, [⟨none⟩]⟩ = some (false, true) ∧
    lacksBothDurations ⟨some 0, [⟨none⟩]⟩ = false := by
  decide

/-! ## C6: `constructColor` -/

/-- `parseInt(hex, 16)` on a two-hex-digit string. -/
theorem jsParseIntHex_pair (a b : Char) (x y : Nat)
    (ha : hexDigitVal a = some x) (hb : hexDigitVal b = some y) :
    jsParseIntHex [a, b] = some (16 * x + y) := by
  simp [jsParseIntHex, parseHexAux, ha, hb]

/-- **C6** (confirmed).  For every `#rgb` or `#rrggbb` hex colour and
opacity in `[0,1]`, `constructColor` produces the rgba string with each
channel expanded to its decimal value and the given opacity; for a string
of any other length (e.g. 5) it throws. -/
theorem claim_C6 (c1 c2 c3 d1 d2 d3 d4 d5 d6 : Char)
    (v1 v2 v3 w1 w2 w3 w4 w5 w6 : Nat) (op : ℚ) (s5 : String)
    (h1 : hexDigitVal c1 = some v1) (h2 : hexDigitVal c2 = some v2)
    (h3 : hexDigitVal c3 = some v3)
    (g1 : hexDigitVal d1 = some w1) (g2 : hexDigitVal d2 = some w2)
    (g3 : hexDigitVal d3 = some w3) (g4 : hexDigitVal d4 = some w4)
    (g5 : hexDigitVal d5 = some w5) (g6 : hexDigitVal d6 = some w6)
    (hop0 : 0 ≤ op) (hop1 : op ≤ 1)
    (h4 : s5.length ≠ 4) (h7 : s5.length ≠ 7) :
    constructColor (String.mk ['#', c1, c2, c3]) op =
      .ok ("rgba(" ++ Nat.repr (17 * v1) ++ "," ++ Nat.repr (17 * v2) ++ "," ++
        Nat.repr (17 * v3) ++ "," ++ decimalString op ++ ")") ∧
    constructColor (String.mk ['#', d1, d2, d3, d4, d5, d6]) op =
      .ok ("rgba(" ++ Nat.repr (16 * w1 + w2) ++ "," ++ Nat.repr (16 * w3 + w4) ++
        "," ++ Nat.repr (16 * w5 + w6) ++ "," ++ decimalString op ++ ")") ∧
    ∃ e, constructColor s5 op = .error e := by
  have e17 : ∀ v : Nat, 16 * v + v = 17 * v := by omega
  refine ⟨?_, ?_, ?_⟩
  · simp only [constructColor, String.length]
    simp [jsParseIntHex_pair _ _ _ _ h1 h1, jsParseIntHex_pair _ _ _ _ h2 h2,
      jsParseIntHex_pair _ _ _ _ h3 h3, jsNumRepr, e17]
  · simp only [constructColor, String.length]
    simp [jsParseIntHex_pair _ _ _ _ g1 g2, jsParseIntHex_pair _ _ _ _ g3 g4,
      jsParseIntHex_pair _ _ _ _ g5 g6, jsNumRepr]
  · refine ⟨"Invalid color code provided, " ++ s5 ++
      "; must be formatted as e.g. #f0e or #f604e2.", ?_⟩
    simp [constructColor, h4, h7]

/-- Witness for C6: `#f0e` at opacity `0.5`, `#f604e2` at opacity `0.5`,
and the length-5 input `#f0ez`. -/
theorem claim_C6_witness :
    constructColor "#f0e" (mkRat 1 2) = .ok "rgba(255,0,238,0.5)" ∧
    constructColor "#f604e2" (mkRat 1 2) = .ok "rgba(246,4,226,0.5)" ∧
    ∃ e, constructColor "#f0ez" (mkRat 1 2) = .error e := by
  obtain ⟨h1, h2, h3⟩ := claim_C6 'f' '0' 'e' 'f' '6' '0' '4' 'e' '2'
    15 0 14 15 6 0 4 14 2 (mkRat 1 2) "#f0ez"
    (by decide) (by decide) (by decide) (by decide) (by decide) (by decide)
    (by decide) (by decide) (by decide) (by decide) (by decide) (by decide)
    (by decide)
  exact ⟨h1.trans (by decide), h2.trans (by decide), h3⟩

/-! ## C7: caption style application -/

/-- A bind of succeeding `Except` computations succeeds. -/
theorem bindStepsOk {α β : Type} (A : Except String α) (f : α → Except String β)
    (hA : ∃ a, A = .ok a) (hf : ∀ a, ∃ b, f a = .ok b) :
    ∃ b, A.bind f = .ok b := by
  obtain ⟨a, ha⟩ := hA
  obtain ⟨b, hb⟩ := hf a
  refine ⟨b, ?_⟩
  rw [ha]
  exact hb

/-- `constructColor` succeeds on strings of length 4 or 7. -/
theorem constructColor_ok (c : String) (op : ℚ)
    (h : c.length = 4 ∨ c.length = 7) : ∃ s, constructColor c op = .ok s := by
  rcases h with h | h <;> simp [constructColor, h]

/-- `removeStyle`'s writes succeed on a runtime that accepts them. -/
theorem removeStyleObj_ok (rejects : RejectFn) (st : List (String × String))
    (hl : rejects "left" "" = false) (hw : rejects "width" "100%" = false) :
    ∃ s, removeStyleObj rejects st = .ok s := by
  simp [removeStyleObj, rawStyleWrite, hl, hw, Except.bind]

/-- `removeStyle` on one span succeeds on a runtime that accepts its writes. -/
theorem removeStyleSpan_ok (rejects : RejectFn) (sp : SpanEl)
    (hl : rejects "left" "" = false) (hw : rejects "width" "100%" = false) :
    ∃ sp', removeStyleSpan rejects sp = .ok sp' := by
  obtain ⟨s, hs⟩ := removeStyleObj_ok rejects sp.style hl hw
  refine ⟨{ sp with style := s }, ?_⟩
  rw [removeStyleSpan, hs]
  rfl

/-- The span loop succeeds (preserving the number of spans) when the
per-span body succeeds on each span. -/
theorem mapSpansM_ok (f : SpanEl → Except String SpanEl) (l : List SpanEl)
    (hf : ∀ sp ∈ l, ∃ sp', f sp = .ok sp') :
    ∃ l', mapSpansM f l = .ok l' ∧ l'.length = l.length := by
  induction l with
  | nil => exact ⟨[], rfl, rfl⟩
  | cons sp rest ih =>
    obtain ⟨sp', hsp⟩ := hf sp (List.mem_cons_self sp rest)
    obtain ⟨rest', hrest, hlen⟩ := ih (fun x hx => hf x (List.mem_cons_of_mem _ hx))
    refine ⟨sp' :: rest', ?_, by simp [hlen]⟩
    rw [mapSpansM, hsp]
    show (mapSpansM f rest).bind _ = _
    rw [hrest]
    rfl

/-- The per-span style application succeeds whenever the runtime accepts
every *plain* (unguarded) style write it performs, `windowColor` comes
with `windowOpacity` (otherwise the `span.parent` bug throws), and the
colour overrides are well-formed — no matter which of the
`tryUpdateStyle`-guarded writes the runtime rejects. -/
theorem processSpan_ok (rejects : RejectFn) (ov : Overrides) (sp : SpanEl)
    (hta : rejects "textAlign" "center" = false)
    (hcol : ∀ c, ov.color = some c → rejects "color" c = false)
    (hbg : ∀ c, ov.backgroundColor = some c → rejects "backgroundColor" c = false)
    (hts : ∀ v, rejects "textShadow" v = false)
    (hfs : ∀ v, rejects "fontSize" v = false)
    (hh : rejects "height" "auto" = false)
    (htp : rejects "top" "auto" = false)
    (hbt : rejects "bottom" "2px" = false)
    (hfv : rejects "fontVariant" "small-caps" = false)
    (hff : ∀ v, rejects "fontFamily" v = false)
    (hwin : truthyStr ov.windowColor = true → truthyNum ov.windowOpacity = true)
    (hclen : truthyNum ov.textOpacity = true →
      (jsOr ov.color "#fff").length = 4 ∨ (jsOr ov.color "#fff").length = 7)
    (hbglen : truthyNum ov.backgroundOpacity = true →
      (jsOr ov.backgroundColor "#000").length = 4 ∨
        (jsOr ov.backgroundColor "#000").length = 7)
    (hwclen : truthyStr ov.windowColor = true →
      (ov.windowColor.getD "").length = 4 ∨ (ov.windowColor.getD "").length = 7) :
    ∃ sp', processSpan rejects ov sp = .ok sp' := by
  unfold processSpan
  apply bindStepsOk
  · simp [rawStyleWrite, hta]
  intro ps1
  apply bindStepsOk
  · cases hc : ov.color with
    | none => simp [truthyStr]
    | some c =>
      by_cases h : truthyStr (some c) = true
      · simp [h, rawStyleWrite, hcol c hc]
      · simp [h]
  intro st1
  apply bindStepsOk
  · by_cases h : truthyNum ov.textOpacity
    · obtain ⟨s, hs⟩ :=
        constructColor_ok (jsOr ov.color "#fff") (ov.textOpacity.getD 0) (hclen h)
      simp [h, hs, Except.bind]
    · simp [h]
  intro st2
  apply bindStepsOk
  · cases hc : ov.backgroundColor with
    | none => simp [truthyStr]
    | some c =>
      by_cases h : truthyStr (some c) = true
      · simp [h, rawStyleWrite, hbg c hc]
      · simp [h]
  intro st3
  apply bindStepsOk
  · by_cases h : truthyNum ov.backgroundOpacity
    · obtain ⟨s, hs⟩ :=
        constructColor_ok (jsOr ov.backgroundColor "#000")
          (ov.backgroundOpacity.getD 0) (hbglen h)
      simp [h, hs, Bind.bind, Except.bind]
    · simp [h]
  intro st4
  apply bindStepsOk
  · by_cases h : truthyStr ov.windowColor
    · obtain ⟨s, hs⟩ :=
        constructColor_ok (ov.windowColor.getD "") (ov.windowOpacity.getD 0)
          (hwclen h)
      simp [h, hwin h, hs, Except.bind]
    · simp [h]
  intro ps2
  apply bindStepsOk
  · by_cases h : truthyStr ov.edgeStyle
    · simp only [h, if_true]
      split_ifs <;> simp [rawStyleWrite, hts]
    · simp [h]
  intro st5
  apply bindStepsOk
  · by_cases h : (truthyNum ov.fontPercent && (ov.fontPercent.getD 0 != 1)) = true
    · simp [h, rawStyleWrite, hfs, hh, htp, hbt, Except.bind]
    · simp [h]
  intro st6
  apply bindStepsOk
  · by_cases h : (truthyStr ov.fontFamily && (ov.fontFamily != some "default")) = true
    · by_cases h2 : ov.fontFamily = some "small-caps"
      · simp [h, h2, rawStyleWrite, hfv, truthyStr]
      · simp [h, h2, rawStyleWrite, hff]
    · simp [h]
  intro st7
  exact ⟨_, rfl⟩

/-- **C7** (amended).  Applying caption styles is a no-op when no caption
node exists (and when the player has no `textTrackSettings`); and style
application completes without error — silently skipping rejected writes —
whenever the runtime accepts every *plain* style write, regardless of
which `tryUpdateStyle`-routed (opacity-derived rgba) writes it rejects;
the tolerance does not extend to the plain writes surrounding them, and
`windowColor` must come with `windowOpacity` (the `windowColor`-only
branch dereferences the undefined `span.parent` and throws). -/
theorem claim_C7 (rejects : RejectFn) (hasSettings : Bool) (ov : Overrides)
    (arg fb : Option CaptionDiv) (d : CaptionDiv)
    (hl : rejects "left" "" = false) (hw : rejects "width" "100%" = false)
    (hta : rejects "textAlign" "center" = false)
    (hcol : ∀ c, ov.color = some c → rejects "color" c = false)
    (hbg : ∀ c, ov.backgroundColor = some c → rejects "backgroundColor" c = false)
    (hts : ∀ v, rejects "textShadow" v = false)
    (hfs : ∀ v, rejects "fontSize" v = false)
    (hh : rejects "height" "auto" = false)
    (htp : rejects "top" "auto" = false)
    (hbt : rejects "bottom" "2px" = false)
    (hfv : rejects "fontVariant" "small-caps" = false)
    (hff : ∀ v, rejects "fontFamily" v = false)
    (hwin : truthyStr ov.windowColor = true → truthyNum ov.windowOpacity = true)
    (hclen : truthyNum ov.textOpacity = true →
      (jsOr ov.color "#fff").length = 4 ∨ (jsOr ov.color "#fff").length = 7)
    (hbglen : truthyNum ov.backgroundOpacity = true →
      (jsOr ov.backgroundColor "#000").length = 4 ∨
        (jsOr ov.backgroundColor "#000").length = 7)
    (hwclen : truthyStr ov.windowColor = true →
      (ov.windowColor.getD "").length = 4 ∨ (ov.windowColor.getD "").length = 7) :
    updateStyle rejects hasSettings ov none none = .ok none ∧
    updateStyle rejects false ov arg fb = .ok (effDiv arg fb) ∧
    ∃ d', updateStyle rejects true ov (some d) fb = .ok (some d') ∧
      d'.spans.length = d.spans.length := by
  refine ⟨?_, rfl, ?_⟩
  · cases hasSettings <;> simp [updateStyle, effDiv]
  · obtain ⟨s0, hs0⟩ := removeStyleObj_ok rejects d.style hl hw
    obtain ⟨sp1, hsp1, hlen1⟩ :=
      mapSpansM_ok _ d.spans (fun sp _ => removeStyleSpan_ok rejects sp hl hw)
    obtain ⟨sp2, hsp2, hlen2⟩ :=
      mapSpansM_ok _ sp1 (fun sp _ => processSpan_ok rejects ov sp hta hcol hbg
        hts hfs hh htp hbt hfv hff hwin hclen hbglen hwclen)
    refine ⟨⟨s0, sp2⟩, ?_, by rw [hlen2, hlen1]⟩
    simp [updateStyle, effDiv, hs0, hsp1, hsp2, Except.bind]

/-- Witness for C7: a runtime that rejects every rgba-valued `color` /
`backgroundColor` write (the IE8 behaviour `tryUpdateStyle` exists for),
full style overrides, one span. -/
theorem claim_C7_witness :
    updateStyle
      (fun p v => (p == "color" || p == "backgroundColor") &&
        startsWithL v.data "rgba(".data)
      true
      ⟨some "#f0e", some (mkRat 1 2), some "#000000", some (mkRat 3 10),
        some "#222", some (mkRat 1 4), some "uniform", some (mkRat 3 2),
        some "monospace"⟩
      none none = .ok none ∧
    ∃ d', updateStyle
      (fun p v => (p == "color" || p == "backgroundColor") &&
        startsWithL v.data "rgba(".data)
      true
      ⟨some "#f0e", some (mkRat 1 2), some "#000000", some (mkRat 3 10),
        some "#222", some (mkRat 1 4), some "uniform", some (mkRat 3 2),
        some "monospace"⟩
      (some ⟨[], [⟨[("fontSize", "32px")], []⟩]⟩) none = .ok (some d') ∧
      d'.spans.length = 1 := by
  obtain ⟨hnoop, -, hok⟩ := claim_C7
    (fun p v => (p == "color" || p == "backgroundColor") &&
      startsWithL v.data "rgba(".data)
    true
    ⟨some "#f0e", some (mkRat 1 2), some "#000000", some (mkRat 3 10),
      some "#222", some (mkRat 1 4), some "uniform", some (mkRat 3 2),
      some "monospace"⟩
    none none ⟨[], [⟨[("fontSize", "32px")], []⟩]⟩
    (by decide) (by decide) (by decide)
    (by intro c hc; simp at hc; subst hc; decide)
    (by intro c hc; simp at hc; subst hc; decide)
    (fun v => rfl) (fun v => rfl) (by decide) (by decide) (by decide)
    (by decide) (fun v => rfl) (by decide) (by decide) (by decide) (by decide)
  exact ⟨hnoop, hok⟩

/-- **C7 counterexample.**  A runtime that rejects a *plain* `color` write
makes `updateStyle` throw, aborting the remaining properties — refuting
"a failure of any single CSS property assignment is silently ignored
without aborting". -/
theorem claim_C7_counterexample :
    updateStyle (fun p _ => p == "color") true
      { noOverrides with color := some "#fff" }
      (some ⟨[], [⟨[], []⟩]⟩) none = .error "style write rejected: color" := by
  decide

end VjsDash
